import Mathlib

/-!
Verification development for a CRAG (corrective retrieval-augmented
generation) backend.  The definitions below are a shallow embedding of
`Backend/app/core/security.py` and `Backend/app/services/crag_service.py`:
pure Python string manipulation is translated to structural functions on
`List Char`, the external language-model / retrieval / rerank / synthesis
services are abstract parameters collected in a `Services` record, calls to
them are recorded as `Event`s, and a text-service call that raises is an
`Except.error`.  Reranker scores (Python floats) are modelled as rationals.
-/

namespace CragSpec

/-! ### String utilities mirroring the Python builtins used by the code -/

/-- Whether `pat` occurs at the head of `l` (Python `str.startswith`). -/
def listStartsWith : (pat l : List Char) → Bool
  | [], _ => true
  | _ :: _, [] => false
  | a :: ps, b :: ls => a == b && listStartsWith ps ls

/-- Whether `pat` occurs somewhere inside `l` (Python `sub in s`). -/
def listContainsSub (pat : List Char) : List Char → Bool
  | [] => pat.isEmpty
  | c :: t => listStartsWith pat (c :: t) || listContainsSub pat t

/-- Python `pat in s` on strings. -/
def strContains (s pat : String) : Bool := listContainsSub pat.data s.data

/-- Python `str.lower()` (ASCII, matching `Char.toLower`). -/
def lowerStr (s : String) : String := ⟨s.data.map Char.toLower⟩

/-- Python `str.upper()` (ASCII, matching `Char.toUpper`). -/
def upperStr (s : String) : String := ⟨s.data.map Char.toUpper⟩

/-- Python `str.strip()` with no argument: whitespace off both ends. -/
def trimStr (s : String) : String :=
  ⟨((s.data.dropWhile Char.isWhitespace).reverse.dropWhile Char.isWhitespace).reverse⟩

/-- Drop every character of `cs` from the end of `s`. -/
def stripTrailingSet (cs : List Char) (s : String) : String :=
  ⟨(s.data.reverse.dropWhile (cs.contains ·)).reverse⟩

/-- Drop every character of `cs` from the front of `s`. -/
def stripLeadingSet (cs : List Char) (s : String) : String :=
  ⟨s.data.dropWhile (cs.contains ·)⟩

/-- Python `str.strip(chars)`: both ends (trailing first; the order is
immaterial since the two ends are independent). -/
def stripSet (cs : List Char) (s : String) : String :=
  stripLeadingSet cs (stripTrailingSet cs s)

/-- Fuel-indexed single-pass replacement; with fuel at least the length of
the list it is Python `str.replace` (left to right, non-overlapping) for a
non-empty pattern. -/
def replaceFuel (pat rep : List Char) : Nat → List Char → List Char
  | 0, l => l
  | _ + 1, [] => []
  | fuel + 1, c :: t =>
    if listStartsWith pat (c :: t) && !pat.isEmpty then
      rep ++ replaceFuel pat rep fuel ((c :: t).drop pat.length)
    else c :: replaceFuel pat rep fuel t

/-- Python `s.replace(pat, rep)` for the non-empty patterns the code uses. -/
def replaceStr (s pat rep : String) : String :=
  ⟨replaceFuel pat.data rep.data s.data.length s.data⟩

/-- Python `l[-n:]`. -/
def lastN (n : Nat) (l : List α) : List α := l.drop (l.length - n)

/-- Python `sep.join(l)`. -/
def joinSep (sep : String) : List String → String
  | [] => ""
  | [x] => x
  | x :: y :: t => x ++ sep ++ joinSep sep (y :: t)

/-- Python `dict.get(k, dflt)` over an association list of strings. -/
def dictGetStr (d : List (String × String)) (k dflt : String) : String :=
  match d.find? (fun p => p.1 == k) with
  | some p => p.2
  | none => dflt

/-! ### `Backend/app/core/security.py` -/

/-- Members of the `UserRole` enum. -/
inductive UserRole where
  | staff
  | admin
  | master_admin
deriving DecidableEq, BEq, Repr

/-- The `RBAC.PERMISSIONS` table, entry for entry. -/
def PERMISSIONS : List (UserRole × List String) :=
  [ (UserRole.staff,
      [ "start_chat_session", "submit_chat_query", "view_own_chat_history",
        "upload_private_document", "view_own_private_documents",
        "view_global_documents" ]),
    (UserRole.admin,
      [ "start_chat_session", "submit_chat_query", "view_own_chat_history",
        "upload_private_document", "view_own_private_documents",
        "view_global_documents", "upload_global_document",
        "create_user" ]),
    (UserRole.master_admin,
      [ "create_user", "update_user_role", "delete_user" ]) ]

/-- Python `RBAC.PERMISSIONS.get(user_role, [])`. -/
def permGet (d : List (UserRole × List String)) (r : UserRole) : List String :=
  match d.find? (fun p => p.1 == r) with
  | some p => p.2
  | none => []

/-- The static method `RBAC.check_access`: `action in allowed_actions`. -/
def check_access (r : UserRole) (a : String) : Bool :=
  (permGet PERMISSIONS r).contains a

/-- State-passing rendering of `check_access`: the permission table is
threaded through explicitly so that non-mutation is expressible. -/
def check_access_st (d : List (UserRole × List String)) (r : UserRole) (a : String) :
    Bool × List (UserRole × List String) :=
  ((permGet d r).contains a, d)

deriving instance DecidableEq for Except

/-! ### Data model for `Backend/app/services/crag_service.py` -/

/-- A retrieved node: reranker score (Python float, modelled as a rational;
`none` is Python `None`), source metadata and text content. -/
structure Passage where
  score : Option ℚ
  fileName : String
  pageLabel : String
  content : String
deriving DecidableEq, Repr

/-- One call to an external collaborator, recorded for frame reasoning. -/
inductive Event where
  | llmCall (prompt : String)
  | retrieveCall (query : String)
  | rerankCall (query : String)
  | synthCall (query : String)
deriving DecidableEq, Repr

/-- The external collaborators of `CRAGService`: the language-model text
service (which may raise, hence `Except`), the vector retriever, the
cross-encoder reranker, and the synthesizer (returning the answer text and
its `source_nodes`). -/
structure Services where
  llm : String → Except String String
  retrieve : String → List Passage
  rerank : String → List Passage → List Passage
  synth : String → List Passage → String × List Passage

/-- Value of `_run_rag_pipeline`: answer, formatted sources, and the
`debug_nodes` entry (raw nodes when rejected, formatted strings when
accepted, as in the Python dict). -/
structure RagResult where
  answer : String
  sources : List String
  debug : List Passage ⊕ List String
deriving DecidableEq, Repr

/-- The dict built from `result_template` in `generate_response`. -/
structure PipelineResult where
  answer : String
  sources : List String
  intent : String
  sessionUpdates : List (String × String)
  debugNodes : Option (List Passage ⊕ List String)
deriving DecidableEq, Repr

/-! ### Fixed strings of `crag_service.py` -/

/-- Greeting lexicon of the classifier fast path. -/
def greetings : List String := ["hello", "hi", "hey", "thanks", "good morning"]

/-- Low-confidence fallback of `_run_rag_pipeline`. -/
def lowConfMsg : String :=
  "I searched the internal documents, but I couldn't find information closely related to that. Could you try rephrasing?"

/-- Refusal substituted by the hallucination screen. -/
def refusalMsg : String :=
  "I apologize, but I could not find a specific answer in the documents, and I am restricted from guessing."

/-- Off-domain lexicon of the hallucination screen. -/
def forbiddenKeywords : List String :=
  ["essay", "methodology", "urban planning", "renewable energy", "introduction", "conclusion"]

/-- Greeting answer when a user name is remembered. -/
def greetingMsgNamed (user_name : String) : String :=
  "Hello " ++ user_name ++ "! I can help with tenancy agreements and property questions."

/-- Greeting answer without a remembered name. -/
def greetingMsgAnon : String := "Hello! I am your Real Estate Assistant."

/-- The GENERAL-category refusal body. -/
def generalMsg : String :=
  "I focus specifically on Tenancy and Real Estate. I cannot answer general questions."

/-- The DEPENDENT-with-empty-history clarification body. -/
def clarifyMsg : String := "could you please clarify which agreement you are referring to?"

/-- The `classify_prompt` template applied to a query. -/
def classifyPromptStr (q : String) : String :=
  "Classify the User Input into exactly one category:\n1. GREETING: (Hello, Hi, Thanks, Bye)\n2. SESSION: (User name, preferences)\n3. GENERAL: (Weather, Jokes, General Knowledge)\n4. DOMAIN: (Real Estate, Tenancy, Contracts, Rent, Property)\n5. DEPENDENT: (Ambiguous follow-ups)\nQuery: "
    ++ q ++ "\nAnswer ONLY with the Category Name."

/-- The `session_prompt` template applied to a query. -/
def sessionPromptStr (q : String) : String :=
  "User Input: " ++ q ++ "\nExtract the name they want to be called. If none, output NONE.\nName:"

/-- The `multiquery_prompt` template applied to history and query. -/
def multiqueryPromptStr (historyStr q : String) : String :=
  "You are an AI assistant. Your task is to generate 3 different search queries based on the user's follow-up question and conversation history.\n1. A direct rewrite of the question.\n2. A search for related keywords (e.g., 'fees', 'legal', 'clause').\n3. A hypothetical answer snippet (what the document might say).\nContext: "
    ++ historyStr ++ "\nFollow-up: " ++ q ++ "\nOutput ONLY the 3 queries, separated by a newline."

/-! ### Helper steps of the service -/

/-- Python `query.lower().strip().strip('!.?')` from the classifier fast path. -/
def normalizeGreetingQuery (q : String) : String :=
  stripSet ['!', '.', '?'] (trimStr (lowerStr q))

/-- The method `_normalize_query`. -/
def normalizeQuery (query : String) : String :=
  let q := lowerStr query
  let q := replaceStr q "should included" "should be included"
  replaceStr q "what include" "what is included"

/-- One alternative of the anchored label regex in `_clean_rewrite`:
case-insensitive match of `label` (given lowercase) at the front, removing
it on success. -/
def labelDrop (label : String) (s : String) : Option String :=
  if listStartsWith label.data (lowerStr s).data then some ⟨s.data.drop label.length⟩ else none

/-- The regex substitution of `_clean_rewrite`: at most one leading label
is removed, alternatives tried in the pattern's order. -/
def stripLabels (s : String) : String :=
  match labelDrop "rewritten question:" s with
  | some r => r
  | none =>
    match labelDrop "rewritten:" s with
    | some r => r
    | none =>
      match labelDrop "question:" s with
      | some r => r
      | none => s

/-- The cleaned candidate of `_clean_rewrite`: label stripped, whitespace
trimmed, then `.strip('"')` and `.strip("'")` in that order. -/
def cleanedRewriteOf (rewrite : String) : String :=
  stripSet [Char.ofNat 39] (stripSet ['"'] (trimStr (stripLabels rewrite)))

/-- The method `_clean_rewrite`. -/
def cleanRewrite (rewrite original : String) : String :=
  let clean := cleanedRewriteOf rewrite
  if clean.length > original.length * 4 || strContains (lowerStr clean) "apologize" then original
  else if clean = "" then original
  else clean

/-- The substring-precedence parse of the classifier response (lines
173-177 of `crag_service.py`). -/
def classifyParse (response : String) : String :=
  if strContains response "GREETING" then "GREETING"
  else if strContains response "SESSION" then "SESSION"
  else if strContains response "GENERAL" then "GENERAL"
  else if strContains response "DEPENDENT" then "DEPENDENT"
  else "DOMAIN"

/-- The method `_classify_input`, also returning the text-service calls it
made (each return site past the fast path has issued exactly the one
classification call).  The surrounding `try` catches any service exception
and yields DOMAIN; the fast path is pure and cannot raise. -/
def classifyInput (sv : Services) (query : String) : String × List Event :=
  if greetings.contains (normalizeGreetingQuery query) then ("GREETING", [])
  else
    (match sv.llm (classifyPromptStr query) with
     | Except.error _ => "DOMAIN"
     | Except.ok t => classifyParse (upperStr (trimStr t)),
     [Event.llmCall (classifyPromptStr query)])

/-- The method `_rewrite_query`: last three turns of history, one
multi-query prompt, `query + "\n" + response`; a raising service is caught
and the original query returned. -/
def rewriteQuery (sv : Services) (query : String) (history : List String) :
    String × List Event :=
  let prompt := multiqueryPromptStr (joinSep "\n" (lastN 3 history)) query
  (match sv.llm prompt with
   | Except.ok t => query ++ "\n" ++ trimStr t
   | Except.error _ => query,
   [Event.llmCall prompt])

/-- The confidence gate of `_run_rag_pipeline`:
`not nodes or (nodes[0].score is not None and nodes[0].score < 0.35)`. -/
def confidenceReject (nodes : List Passage) : Bool :=
  match nodes with
  | [] => true
  | n :: _ =>
    match n.score with
    | some s => decide (s < mkRat 35 100)
    | none => false

/-- Two-decimal rendering of a score (the claims do not depend on the
rounding convention; nearest is used here). -/
def fmt2 (q : ℚ) : String :=
  let n : Int := round (q * 100)
  let m := n.natAbs
  (if n < 0 then "-" else "") ++ toString (m / 100) ++ "." ++
    (if m % 100 < 10 then "0" else "") ++ toString (m % 100)

/-- Python `f"{node.score:.2f}" if node.score else "N/A"` (note `0.0` is
falsy and also renders as `"N/A"`). -/
def formatScore (s : Option ℚ) : String :=
  match s with
  | some q => if q = 0 then "N/A" else fmt2 q
  | none => "N/A"

/-- One line of `source_list` in `_run_rag_pipeline`. -/
def sourceLine (p : Passage) : String :=
  p.fileName ++ " (Page " ++ p.pageLabel ++ ") - Score: " ++ formatScore p.score

/-- One line of `debug_nodes_data` in `_run_rag_pipeline`. -/
def debugLine (p : Passage) : String :=
  "[" ++ formatScore p.score ++ "] " ++ p.fileName ++ ": " ++ (⟨p.content.data.take 100⟩ : String) ++ "..."

/-- The node list reaching the confidence gate: retrieve, then rerank
unless retrieval came back empty. -/
def rerankedNodes (sv : Services) (searchQuery : String) : List Passage :=
  let nodes := sv.retrieve searchQuery
  if nodes.isEmpty then nodes else sv.rerank searchQuery nodes

/-- The method `_run_rag_pipeline`, with its external-call trace. -/
def runRagPipeline (sv : Services) (searchQuery : String) : RagResult × List Event :=
  let nodes := rerankedNodes sv searchQuery
  let ev :=
    if (sv.retrieve searchQuery).isEmpty then [Event.retrieveCall searchQuery]
    else [Event.retrieveCall searchQuery, Event.rerankCall searchQuery]
  if confidenceReject nodes then
    ({ answer := lowConfMsg, sources := [], debug := Sum.inl nodes }, ev)
  else
    let s := sv.synth searchQuery nodes
    ({ answer := s.1,
       sources := (s.2.map sourceLine).take 3,
       debug := Sum.inr (s.2.map debugLine) }, ev ++ [Event.synthCall searchQuery])

/-- The hallucination test of `generate_response` (TUNING 3.2). -/
def hallucinationBlocked (answer : String) : Bool :=
  decide (answer.length > 500) &&
    forbiddenKeywords.any (fun w => strContains (lowerStr answer) w)

/-- Lines 139-154 of `generate_response`: the screen applied to the RAG
result, filling the prepared `result_template`. -/
def applyScreen (rag : RagResult) (base : PipelineResult) : PipelineResult :=
  if hallucinationBlocked rag.answer then
    { base with answer := refusalMsg, sources := [] }
  else
    { base with answer := rag.answer, sources := rag.sources, debugNodes := some rag.debug }

/-- Python `user_context.get("user_name", "")` (a `None` value behaves as
the empty string in every use the function makes of it). -/
def userNameOf (ctx : List (String × String)) : String := dictGetStr ctx "user_name" ""

/-- Python `f"{user_name}, " if user_name else ""`. -/
def friendlyPrefixOf (ctx : List (String × String)) : String :=
  if userNameOf ctx = "" then "" else userNameOf ctx ++ ", "

/-- Python `re.sub(r"[^\w\s]", "", llm_text.strip())`: keep word characters
(ASCII approximation of `\w`) and whitespace. -/
def sessionExtract (t : String) : String :=
  ⟨(trimStr t).data.filter (fun c => c.isAlphanum || c == '_' || c.isWhitespace)⟩

/-- The SESSION branch of `generate_response`.  The name-extraction call is
not guarded by a `try`, so a raising text service propagates. -/
def sessionBranch (sv : Services) (query : String) (base : PipelineResult)
    (ev1 : List Event) : Except String (PipelineResult × List Event) :=
  let prompt := sessionPromptStr query
  match sv.llm prompt with
  | Except.error e => Except.error e
  | Except.ok t =>
    let extracted := sessionExtract t
    if extracted ≠ "" && !strContains extracted "NONE" && decide (extracted.length < 20) then
      Except.ok ({ base with
                    answer := "Nice to meet you, " ++ extracted ++ ".",
                    sessionUpdates := [("user_name", extracted)] },
                 ev1 ++ [Event.llmCall prompt])
    else
      Except.ok ({ base with answer := "Understood." }, ev1 ++ [Event.llmCall prompt])

/-- The method `generate_response`, with its external-call trace. -/
def generateResponse (sv : Services) (query : String) (history : List String)
    (user_context : List (String × String)) : Except String (PipelineResult × List Event) :=
  let user_name := userNameOf user_context
  let friendly_prefix := friendlyPrefixOf user_context
  let c := classifyInput sv query
  let category := c.1
  let ev1 := c.2
  let base : PipelineResult :=
    { answer := "", sources := [], intent := category, sessionUpdates := [], debugNodes := none }
  if category = "GREETING" then
    Except.ok ({ base with
                  answer := if user_name = "" then greetingMsgAnon else greetingMsgNamed user_name },
               ev1)
  else if category = "SESSION" then
    sessionBranch sv query base ev1
  else if category = "GENERAL" then
    Except.ok ({ base with answer := friendly_prefix ++ generalMsg }, ev1)
  else
    let sq1 := normalizeQuery query
    if category = "DEPENDENT" && history.isEmpty then
      Except.ok ({ base with answer := friendly_prefix ++ clarifyMsg }, ev1)
    else
      let r :=
        if category = "DEPENDENT" then
          let rw := rewriteQuery sv query history
          (cleanRewrite rw.1 query, rw.2)
        else (sq1, ([] : List Event))
      let rag := runRagPipeline sv r.1
      Except.ok (applyScreen rag.1 base, ev1 ++ r.2 ++ rag.2)

/-- Whether an event is a retrieval, rerank or synthesis call. -/
def isRetrievalEvent : Event → Bool
  | Event.retrieveCall _ => true
  | Event.rerankCall _ => true
  | Event.synthCall _ => true
  | Event.llmCall _ => false

/-- The greeting-lexicon normalization as the specification words it:
lowercase, surrounding whitespace stripped, trailing punctuation stripped
(the code also strips leading punctuation, which is immaterial for a
positive match). -/
def claimNormalize (q : String) : String :=
  stripTrailingSet ['!', '.', '?'] (trimStr (lowerStr q))

/-! ### Concrete stub services used to instantiate the theorems -/

/-- Stub: empty classifier answer (no category token), nothing retrieved. -/
def svDom : Services :=
  { llm := fun _ => Except.ok "NO IDEA", retrieve := fun _ => [],
    rerank := fun _ n => n, synth := fun _ _ => ("", []) }

/-- Stub: the text service always raises. -/
def svErr : Services :=
  { llm := fun _ => Except.error "boom", retrieve := fun _ => [],
    rerank := fun _ n => n, synth := fun _ _ => ("", []) }

/-- Stub: one passage retrieved with reranker score 0.20, below threshold. -/
def svLow : Services :=
  { llm := fun _ => Except.ok "", retrieve := fun _ => [⟨some (mkRat 2 10), "f.pdf", "1", "text"⟩],
    rerank := fun _ n => n, synth := fun _ _ => ("", []) }

/-- Stub: classifies every query DEPENDENT, answers the multi-query
rewrite prompt with "fees", retrieves nothing. -/
def svDep : Services :=
  { llm := fun p => if strContains p "3 different" then Except.ok "fees" else Except.ok "DEPENDENT",
    retrieve := fun _ => [], rerank := fun _ n => n, synth := fun _ _ => ("", []) }

/-- Stub: classifies every query SESSION and extracts the text "NONEY". -/
def svNoney : Services :=
  { llm := fun p => if strContains p "Extract" then Except.ok "NONEY" else Except.ok "SESSION",
    retrieve := fun _ => [], rerank := fun _ n => n, synth := fun _ _ => ("", []) }

/-- Stub: classifies every query SESSION and extracts the text "Alice". -/
def svAlice : Services :=
  { llm := fun p => if strContains p "Extract" then Except.ok "Alice" else Except.ok "SESSION",
    retrieve := fun _ => [], rerank := fun _ n => n, synth := fun _ _ => ("", []) }

/-- A 505-character answer containing the word "essay". -/
def longEssay : String := (⟨List.replicate 500 'a'⟩ : String) ++ "essay"

/-! ## Theorems -/

/-- Helper: a Boolean membership test over strings that has no witness in
the list evaluates to `false`. -/
theorem contains_eq_false_of_not_mem {l : List String} {a : String} (h : a ∉ l) :
    l.contains a = false := by
  cases hc : l.contains a with
  | false => rfl
  | true => exact absurd (List.elem_iff.mp hc) h

/-- C9: `check_access` is deterministic and side-effect-free: the same
`(role, action)` pair always yields the same boolean, the state-passing
rendering returns the permission table unchanged and a repeated check on
the returned table agrees with the first, and every action outside the
role's configured permission list (in particular every unknown action
name) is denied. -/
theorem C9_check_access_pure (r : UserRole) (a : String) :
    (check_access r a = check_access r a)
    ∧ (check_access_st PERMISSIONS r a).2 = PERMISSIONS
    ∧ (check_access_st (check_access_st PERMISSIONS r a).2 r a).1
        = (check_access_st PERMISSIONS r a).1
    ∧ (a ∉ permGet PERMISSIONS r → check_access r a = false) :=
  ⟨rfl, rfl, rfl, fun h => contains_eq_false_of_not_mem h⟩

/-- Witness for C9: STAFF holds no `delete_user` permission and the check
denies it. -/
theorem C9_witness :
    "delete_user" ∉ permGet PERMISSIONS UserRole.staff
    ∧ check_access UserRole.staff "delete_user" = false :=
  ⟨by decide, (C9_check_access_pure UserRole.staff "delete_user").2.2.2 (by decide)⟩

/-- C5: whenever the cleaned rewrite (labels stripped, trimmed, quotes
stripped) is empty, longer than four times the original query, or contains
"apologize" case-insensitively, `_clean_rewrite` returns the original
query byte for byte. -/
theorem C5_clean_rewrite_fallback (rewrite original : String)
    (h : cleanedRewriteOf rewrite = ""
         ∨ (cleanedRewriteOf rewrite).length > original.length * 4
         ∨ strContains (lowerStr (cleanedRewriteOf rewrite)) "apologize" = true) :
    cleanRewrite rewrite original = original := by
  unfold cleanRewrite
  rcases h with h | h | h
  · rw [h]
    simp
  · simp [h]
  · simp [h]

/-- Witness for C5: an apologetic rewrite is discarded for the original. -/
theorem C5_witness :
    strContains (lowerStr (cleanedRewriteOf "I Apologize, I cannot")) "apologize" = true
    ∧ cleanRewrite "I Apologize, I cannot" "rent?" = "rent?" :=
  ⟨by decide, C5_clean_rewrite_fallback "I Apologize, I cannot" "rent?"
      (Or.inr (Or.inr (by decide)))⟩

/-- C4: the hallucination screen fires exactly when the answer is longer
than 500 characters and its lowercase form contains a word of the fixed
off-domain lexicon; a firing screen substitutes the fixed refusal and
empties the sources, a non-firing screen passes answer and sources through
unchanged, and no answer of length at most 500 ever fires it. -/
theorem C4_hallucination_screen (rag : RagResult) (base : PipelineResult) :
    (hallucinationBlocked rag.answer = true ↔
      rag.answer.length > 500 ∧ ∃ w ∈ forbiddenKeywords, strContains (lowerStr rag.answer) w = true)
    ∧ (hallucinationBlocked rag.answer = true →
        applyScreen rag base = { base with answer := refusalMsg, sources := [] })
    ∧ (hallucinationBlocked rag.answer = false →
        (applyScreen rag base).answer = rag.answer ∧ (applyScreen rag base).sources = rag.sources)
    ∧ (rag.answer.length ≤ 500 → hallucinationBlocked rag.answer = false) := by
  refine ⟨?_, ?_, ?_, ?_⟩
  · simp [hallucinationBlocked, List.any_eq_true]
  · intro h
    simp [applyScreen, h]
  · intro h
    simp [applyScreen, h]
  · intro h
    simp [hallucinationBlocked, Nat.not_lt.mpr h]

set_option maxRecDepth 200000 in
/-- Witness for C4: a 505-character essay-flavored answer is blocked and
replaced by the refusal with empty sources; a short answer passes through
with answer and sources untouched. -/
theorem C4_witness :
    hallucinationBlocked longEssay = true
    ∧ applyScreen ⟨longEssay, ["s1"], Sum.inr []⟩
        ⟨"", [], "DOMAIN", [], none⟩ = ⟨refusalMsg, [], "DOMAIN", [], none⟩
    ∧ (applyScreen ⟨"short", ["s1"], Sum.inr []⟩ ⟨"", [], "DOMAIN", [], none⟩).answer = "short"
    ∧ (applyScreen ⟨"short", ["s1"], Sum.inr []⟩ ⟨"", [], "DOMAIN", [], none⟩).sources = ["s1"] := by
  have hb : hallucinationBlocked longEssay = true := by decide
  have hs : hallucinationBlocked ("short" : String) = false :=
    (C4_hallucination_screen ⟨"short", ["s1"], Sum.inr []⟩ ⟨"", [], "DOMAIN", [], none⟩).2.2.2
      (by decide)
  refine ⟨hb, ?_, ?_⟩
  · exact (C4_hallucination_screen ⟨longEssay, ["s1"], Sum.inr []⟩ ⟨"", [], "DOMAIN", [], none⟩).2.1 hb
  · exact (C4_hallucination_screen ⟨"short", ["s1"], Sum.inr []⟩ ⟨"", [], "DOMAIN", [], none⟩).2.2.1 hs

/-- C6: any query whose normalization (lowercase, whitespace trimmed,
trailing punctuation stripped) equals a word of the greeting lexicon is
classified GREETING with no text-service call (the empty event trace),
whatever the text service would have answered. -/
theorem C6_greeting_fast_path (sv : Services) (q : String)
    (h : claimNormalize q ∈ greetings) :
    classifyInput sv q = ("GREETING", []) := by
  have hsplit : normalizeGreetingQuery q = stripLeadingSet ['!', '.', '?'] (claimNormalize q) := rfl
  have hmem : greetings.contains (normalizeGreetingQuery q) = true := by
    simp only [greetings, List.mem_cons, List.not_mem_nil, or_false] at h
    rcases h with h | h | h | h | h <;>
      simp [List.contains, hsplit, h, stripLeadingSet, greetings]
  unfold classifyInput
  rw [hmem]
  simp

/-- Witness for C6: "  Hey!! " normalizes to "hey" and takes the fast
path, with no service call, even under a service that classifies nothing
as a greeting. -/
theorem C6_witness :
    claimNormalize "  Hey!! " ∈ greetings
    ∧ classifyInput svDom "  Hey!! " = ("GREETING", []) :=
  ⟨by decide, C6_greeting_fast_path svDom "  Hey!! " (by decide)⟩

/-- Helper: the substring-precedence parse only ever produces one of the
five category names. -/
theorem classifyParse_mem (r : String) :
    classifyParse r ∈ ["GREETING", "SESSION", "GENERAL", "DEPENDENT", "DOMAIN"] := by
  unfold classifyParse
  split_ifs <;> simp

/-- C2: past the greeting fast path the classifier is total over the five
categories (no exception reaches the caller), a raising text service
yields DOMAIN, and a returned response is parsed by substring match in the
precedence order GREETING, SESSION, GENERAL, DEPENDENT with DOMAIN when no
recognized token occurs. -/
theorem C2_classifier_parse (sv : Services) (q : String)
    (hmiss : greetings.contains (normalizeGreetingQuery q) = false) :
    ((classifyInput sv q).1 ∈ ["GREETING", "SESSION", "GENERAL", "DEPENDENT", "DOMAIN"])
    ∧ (∀ e, sv.llm (classifyPromptStr q) = Except.error e → (classifyInput sv q).1 = "DOMAIN")
    ∧ (∀ t, sv.llm (classifyPromptStr q) = Except.ok t →
        (strContains (upperStr (trimStr t)) "GREETING" = true →
          (classifyInput sv q).1 = "GREETING")
        ∧ (strContains (upperStr (trimStr t)) "GREETING" = false →
           strContains (upperStr (trimStr t)) "SESSION" = true →
          (classifyInput sv q).1 = "SESSION")
        ∧ (strContains (upperStr (trimStr t)) "GREETING" = false →
           strContains (upperStr (trimStr t)) "SESSION" = false →
           strContains (upperStr (trimStr t)) "GENERAL" = true →
          (classifyInput sv q).1 = "GENERAL")
        ∧ (strContains (upperStr (trimStr t)) "GREETING" = false →
           strContains (upperStr (trimStr t)) "SESSION" = false →
           strContains (upperStr (trimStr t)) "GENERAL" = false →
           strContains (upperStr (trimStr t)) "DEPENDENT" = true →
          (classifyInput sv q).1 = "DEPENDENT")
        ∧ (strContains (upperStr (trimStr t)) "GREETING" = false →
           strContains (upperStr (trimStr t)) "SESSION" = false →
           strContains (upperStr (trimStr t)) "GENERAL" = false →
           strContains (upperStr (trimStr t)) "DEPENDENT" = false →
          (classifyInput sv q).1 = "DOMAIN")) := by
  unfold classifyInput
  rw [hmiss]
  simp only [Bool.false_eq_true, if_false]
  refine ⟨?_, ?_, ?_⟩
  · cases hl : sv.llm (classifyPromptStr q) with
    | error e => simp
    | ok t => exact classifyParse_mem (upperStr (trimStr t))
  · intro e he
    rw [he]
  · intro t ht
    rw [ht]
    unfold classifyParse
    refine ⟨?_, ?_, ?_, ?_, ?_⟩ <;> intros <;> simp_all

/-- Witness for C2: a response with no category token gives DOMAIN, and a
raising service also gives DOMAIN, at the query "what is rent". -/
theorem C2_witness :
    (classifyInput svDom "what is rent").1 = "DOMAIN"
    ∧ (classifyInput svErr "what is rent").1 = "DOMAIN" :=
  ⟨((C2_classifier_parse svDom "what is rent" (by decide)).2.2 "NO IDEA" rfl).2.2.2.2
      (by decide) (by decide) (by decide) (by decide),
   (C2_classifier_parse svErr "what is rent" (by decide)).2.1 "boom" rfl⟩

/-- Helper: the embedded gate threshold equals the rational 0.35. -/
theorem threshold_eq : mkRat 35 100 = (35 : ℚ)/100 := by
  rw [Rat.mkRat_eq_divInt, Rat.divInt_eq_div]
  norm_num

set_option maxRecDepth 100000 in
/-- C1: the confidence gate rejects exactly an empty passage list or a
present top score strictly below 0.35, a top passage with an absent score
is accepted, and on rejection `_run_rag_pipeline` returns the fixed
low-confidence fallback with an empty sources list, which the downstream
hallucination screen passes through unchanged. -/
theorem C1_confidence_gate (sv : Services) (q : String) (nodes : List Passage) :
    (confidenceReject nodes = true ↔
      nodes = [] ∨ ∃ n rest s, nodes = n :: rest ∧ n.score = some s ∧ s < 35/100)
    ∧ (∀ n rest, nodes = n :: rest → n.score = none → confidenceReject nodes = false)
    ∧ (confidenceReject (rerankedNodes sv q) = true →
        (runRagPipeline sv q).1.answer = lowConfMsg ∧ (runRagPipeline sv q).1.sources = [])
    ∧ (∀ (rag : RagResult) (base : PipelineResult), rag.answer = lowConfMsg →
        (applyScreen rag base).answer = lowConfMsg
        ∧ (applyScreen rag base).sources = rag.sources) := by
  have hb : hallucinationBlocked lowConfMsg = false := by decide
  refine ⟨?_, ?_, ?_, ?_⟩
  · cases nodes with
    | nil => simp [confidenceReject]
    | cons n rest =>
      cases hs : n.score with
      | none => simp [confidenceReject, hs]
      | some s =>
        simp only [confidenceReject, hs, decide_eq_true_eq, threshold_eq]
        constructor
        · intro hlt
          exact Or.inr ⟨n, rest, s, rfl, hs, hlt⟩
        · rintro (h | ⟨n', rest', s', heq, hsc, hlt⟩)
          · exact absurd h (List.cons_ne_nil n rest)
          · cases heq
            rw [hs] at hsc
            cases hsc
            exact hlt
  · intro n rest hn hsc
    rw [hn]
    simp [confidenceReject, hsc]
  · intro h
    simp [runRagPipeline, h]
  · intro rag base h
    simp [applyScreen, h, hb]

set_option maxRecDepth 100000 in
/-- Witness for C1: the empty list and a 0.20-scoring top passage are
rejected, an absent score is accepted, and under a service retrieving the
0.20 passage the pipeline answers the fixed fallback with no sources. -/
theorem C1_witness :
    confidenceReject [] = true
    ∧ confidenceReject [⟨some (mkRat 2 10), "f.pdf", "1", "text"⟩] = true
    ∧ confidenceReject [⟨none, "f.pdf", "1", "text"⟩] = false
    ∧ (runRagPipeline svLow "q").1.answer = lowConfMsg
    ∧ (runRagPipeline svLow "q").1.sources = [] := by
  refine ⟨?_, ?_, ?_, ?_, ?_⟩
  · exact (C1_confidence_gate svLow "q" []).1.mpr (Or.inl rfl)
  · exact (C1_confidence_gate svLow "q" [⟨some (mkRat 2 10), "f.pdf", "1", "text"⟩]).1.mpr
      (Or.inr ⟨_, [], mkRat 2 10, rfl, rfl,
        by norm_num [Rat.mkRat_eq_divInt, Rat.divInt_eq_div]⟩)
  · exact (C1_confidence_gate svLow "q" [⟨none, "f.pdf", "1", "text"⟩]).2.1 _ [] rfl rfl
  · exact ((C1_confidence_gate svLow "q" []).2.2.1 (by decide)).1
  · exact ((C1_confidence_gate svLow "q" []).2.2.1 (by decide)).2

/-- Helper: the classifier's trace holds text-service calls only. -/
theorem classifyInput_events (sv : Services) (q : String) :
    ∀ e ∈ (classifyInput sv q).2, isRetrievalEvent e = false := by
  intro e he
  unfold classifyInput at he
  split at he
  · simp at he
  · simp at he
    subst he
    rfl

/-- Helper: the hallucination screen never touches intent or session
updates. -/
theorem applyScreen_frame (rag : RagResult) (base : PipelineResult) :
    (applyScreen rag base).sessionUpdates = base.sessionUpdates
    ∧ (applyScreen rag base).intent = base.intent := by
  unfold applyScreen
  split <;> exact ⟨rfl, rfl⟩

/-- Helper: the RAG stage's trace starts with the retrieval call on its
search query and continues with rerank or synthesis calls on that same
query only. -/
theorem runRag_events (sv : Services) (sq : String) :
    ∃ tail, (runRagPipeline sv sq).2 = Event.retrieveCall sq :: tail
      ∧ ∀ e ∈ tail, e = Event.rerankCall sq ∨ e = Event.synthCall sq := by
  by_cases hR : confidenceReject (rerankedNodes sv sq) = true
  · by_cases hE : (sv.retrieve sq).isEmpty = true
    · exact ⟨[], by simp [runRagPipeline, hR, hE], by simp⟩
    · exact ⟨[Event.rerankCall sq], by simp [runRagPipeline, hR, hE], by simp⟩
  · by_cases hE : (sv.retrieve sq).isEmpty = true
    · exact ⟨[Event.synthCall sq], by simp [runRagPipeline, hR, hE], by simp⟩
    · exact ⟨[Event.rerankCall sq, Event.synthCall sq], by simp [runRagPipeline, hR, hE],
        by simp⟩

/-- C3: a query classified DEPENDENT arriving with an empty history yields
the (optionally name-prefixed) clarification request, and the resulting
trace is the classifier's trace, which contains no retrieval, rerank or
synthesis call. -/
theorem C3_dependent_empty_history (sv : Services) (q : String)
    (ctx : List (String × String)) (hdep : (classifyInput sv q).1 = "DEPENDENT") :
    generateResponse sv q [] ctx =
      Except.ok ({ answer := friendlyPrefixOf ctx ++ clarifyMsg, sources := [],
                   intent := "DEPENDENT", sessionUpdates := [], debugNodes := none },
                 (classifyInput sv q).2)
    ∧ ∀ e ∈ (classifyInput sv q).2, isRetrievalEvent e = false := by
  refine ⟨?_, classifyInput_events sv q⟩
  simp [generateResponse, hdep]

/-- Helper: the classifier is total over the five categories, fast path
included. -/
theorem classifyInput_mem (sv : Services) (q : String) :
    (classifyInput sv q).1 ∈ ["GREETING", "SESSION", "GENERAL", "DEPENDENT", "DOMAIN"] := by
  unfold classifyInput
  split
  · simp
  · cases sv.llm (classifyPromptStr q) with
    | error e => simp
    | ok t => exact classifyParse_mem _

set_option maxHeartbeats 2000000 in
/-- C10: only the SESSION branch ever stages a context update: whenever
the classified category is not SESSION, a successfully returned pipeline
result carries an empty session-updates map. -/
theorem C10_only_session_updates (sv : Services) (q : String) (history : List String)
    (ctx : List (String × String)) (res : PipelineResult) (ev : List Event)
    (h : generateResponse sv q history ctx = Except.ok (res, ev))
    (hcat : (classifyInput sv q).1 ≠ "SESSION") :
    res.sessionUpdates = [] := by
  have hmem := classifyInput_mem sv q
  simp only [List.mem_cons, List.not_mem_nil, or_false] at hmem
  rcases hmem with hc | hc | hc | hc | hc
  · simp only [generateResponse, hc] at h
    rw [if_pos trivial] at h
    simp only [Except.ok.injEq, Prod.mk.injEq] at h
    rw [← h.1]
  · exact absurd hc hcat
  · simp only [generateResponse, hc] at h
    rw [if_neg (by decide), if_neg (by decide), if_pos trivial] at h
    simp only [Except.ok.injEq, Prod.mk.injEq] at h
    rw [← h.1]
  · simp only [generateResponse, hc] at h
    rw [if_neg (by decide), if_neg (by decide), if_neg (by decide)] at h
    cases history with
    | nil =>
      rw [if_pos (by decide)] at h
      simp only [Except.ok.injEq, Prod.mk.injEq] at h
      rw [← h.1]
    | cons a t =>
      rw [if_neg (by simp), if_pos trivial] at h
      simp only [Except.ok.injEq, Prod.mk.injEq] at h
      rw [← h.1]
      exact (applyScreen_frame _ _).1
  · simp only [generateResponse, hc] at h
    rw [if_neg (by decide), if_neg (by decide), if_neg (by decide),
      if_neg (by simp), if_neg (by decide)] at h
    simp only [Except.ok.injEq, Prod.mk.injEq] at h
    rw [← h.1]
    exact (applyScreen_frame _ _).1

set_option maxRecDepth 400000 in
/-- Witness for C3: under a stub classifying everything DEPENDENT, the
query "Who pays it?" with no history gets the clarification request and a
retrieval-free trace. -/
theorem C3_witness :
    generateResponse svDep "Who pays it?" [] [] =
      Except.ok ({ answer := friendlyPrefixOf [] ++ clarifyMsg, sources := [],
                   intent := "DEPENDENT", sessionUpdates := [], debugNodes := none },
                 (classifyInput svDep "Who pays it?").2)
    ∧ ∀ e ∈ (classifyInput svDep "Who pays it?").2, isRetrievalEvent e = false :=
  C3_dependent_empty_history svDep "Who pays it?" [] (by decide)

set_option maxRecDepth 100000 in
/-- Witness for C10: a fast-path greeting result has no session updates. -/
theorem C10_witness :
    ((⟨greetingMsgAnon, [], "GREETING", [], none⟩ : PipelineResult)).sessionUpdates = [] :=
  C10_only_session_updates svDom "hello" [] []
    ⟨greetingMsgAnon, [], "GREETING", [], none⟩ [] (by decide) (by decide)

set_option maxRecDepth 400000 in
/-- Counterexample to C7: the service extracts "NONEY", which is
non-empty, differs from the literal "NONE" and is shorter than 20
characters, so the claim requires the personalized acknowledgment and a
staged `user_name` update; the code tests `"NONE" not in extracted_name`
by substring and instead returns the generic "Understood." with no
update. -/
theorem C7_counterexample :
    (classifyInput svNoney "call me NONEY").1 = "SESSION"
    ∧ svNoney.llm (sessionPromptStr "call me NONEY") = Except.ok "NONEY"
    ∧ sessionExtract "NONEY" = "NONEY"
    ∧ ("NONEY" : String) ≠ "NONE"
    ∧ ("NONEY" : String) ≠ ""
    ∧ ("NONEY" : String).length < 20
    ∧ generateResponse svNoney "call me NONEY" [] [] =
        Except.ok ({ answer := "Understood.", sources := [], intent := "SESSION",
                     sessionUpdates := [], debugNodes := none },
                   [Event.llmCall (classifyPromptStr "call me NONEY"),
                    Event.llmCall (sessionPromptStr "call me NONEY")]) := by
  decide

/-- C7 (amended): for a SESSION-classified query whose name-extraction
call returns text, with `x` the stripped extraction, exactly when `x` is
non-empty, does not contain the substring "NONE", and is shorter than 20
characters, the personalized acknowledgment is returned with the staged
update `{user_name: x}`; in every other returned case the generic
"Understood." with no update. -/
theorem C7_session_branch_amended (sv : Services) (q : String) (history : List String)
    (ctx : List (String × String)) (t : String)
    (hcat : (classifyInput sv q).1 = "SESSION")
    (hllm : sv.llm (sessionPromptStr q) = Except.ok t) :
    generateResponse sv q history ctx =
      Except.ok
        ((if sessionExtract t ≠ "" ∧ strContains (sessionExtract t) "NONE" = false
             ∧ (sessionExtract t).length < 20 then
            { answer := "Nice to meet you, " ++ sessionExtract t ++ ".", sources := [],
              intent := "SESSION", sessionUpdates := [("user_name", sessionExtract t)],
              debugNodes := none }
          else
            { answer := "Understood.", sources := [], intent := "SESSION",
              sessionUpdates := [], debugNodes := none }),
         (classifyInput sv q).2 ++ [Event.llmCall (sessionPromptStr q)]) := by
  simp only [generateResponse, hcat]
  rw [if_neg (by decide), if_pos trivial]
  simp only [sessionBranch, hllm]
  split_ifs with h1 h2 h2
  · rfl
  · exfalso
    apply h2
    simp only [Bool.and_eq_true, decide_eq_true_eq, Bool.not_eq_true'] at h1
    exact ⟨h1.1.1, h1.1.2, h1.2⟩
  · exfalso
    apply h1
    simp only [Bool.and_eq_true, decide_eq_true_eq, Bool.not_eq_true']
    exact ⟨⟨h2.1, h2.2.1⟩, h2.2.2⟩
  · rfl

set_option maxRecDepth 400000 in
/-- Witness for the amended C7: the extraction "Alice" passes the
conditions, and the personalized acknowledgment with the staged update is
returned. -/
theorem C7_amended_witness :
    generateResponse svAlice "i am alice" [] [] =
      Except.ok
        ((if sessionExtract "Alice" ≠ "" ∧ strContains (sessionExtract "Alice") "NONE" = false
             ∧ (sessionExtract "Alice").length < 20 then
            { answer := "Nice to meet you, " ++ sessionExtract "Alice" ++ ".", sources := [],
              intent := "SESSION", sessionUpdates := [("user_name", sessionExtract "Alice")],
              debugNodes := none }
          else
            { answer := "Understood.", sources := [], intent := "SESSION",
              sessionUpdates := [], debugNodes := none }),
         (classifyInput svAlice "i am alice").2
           ++ [Event.llmCall (sessionPromptStr "i am alice")]) :=
  C7_session_branch_amended svAlice "i am alice" [] [] "Alice" (by decide) (by decide)

set_option maxRecDepth 400000 in
/-- Counterexample to C8: under a DEPENDENT classification with non-empty
history, the query actually sent to retrieval is the cleaned rewrite; the
normalizer has not been applied to it: it still contains the malformation
"should included" that `_normalize_query` fixes, and normalizing it would
change it. -/
theorem C8_counterexample :
    (classifyInput svDep "What should included?").1 = "DEPENDENT"
    ∧ generateResponse svDep "What should included?" ["a"] [] =
        Except.ok ({ answer := lowConfMsg, sources := [], intent := "DEPENDENT",
                     sessionUpdates := [], debugNodes := some (Sum.inl []) },
                   [Event.llmCall (classifyPromptStr "What should included?"),
                    Event.llmCall (multiqueryPromptStr "a" "What should included?"),
                    Event.retrieveCall "What should included?\nfees"])
    ∧ strContains "What should included?\nfees" "should included" = true
    ∧ normalizeQuery "What should included?\nfees" ≠ "What should included?\nfees"
    ∧ (∀ sq, Event.retrieveCall sq ∈
        [Event.llmCall (classifyPromptStr "What should included?"),
         Event.llmCall (multiqueryPromptStr "a" "What should included?"),
         Event.retrieveCall "What should included?\nfees"] →
        sq = "What should included?\nfees") := by
  refine ⟨by decide, by decide, by decide, by decide, ?_⟩
  intro sq hsq
  simp at hsq
  exact hsq

/-- C8 (amended): the normalizer runs, without any text-service call, on
the query before the DEPENDENT-rewrite step; for DOMAIN classifications
the normalized query is exactly what reaches retrieval, while for
DEPENDENT classifications with non-empty history the cleaned rewrite
replaces it and is what reaches retrieval. -/
theorem C8_normalizer_amended (sv : Services) (q : String) (history : List String)
    (ctx : List (String × String)) :
    ((classifyInput sv q).1 = "DOMAIN" →
      generateResponse sv q history ctx =
        Except.ok (applyScreen (runRagPipeline sv (normalizeQuery q)).1
            { answer := "", sources := [], intent := "DOMAIN", sessionUpdates := [],
              debugNodes := none },
          (classifyInput sv q).2 ++ (runRagPipeline sv (normalizeQuery q)).2)
      ∧ Event.retrieveCall (normalizeQuery q)
          ∈ (classifyInput sv q).2 ++ (runRagPipeline sv (normalizeQuery q)).2
      ∧ (∀ sq, Event.retrieveCall sq
            ∈ (classifyInput sv q).2 ++ (runRagPipeline sv (normalizeQuery q)).2 →
          sq = normalizeQuery q))
    ∧ ((classifyInput sv q).1 = "DEPENDENT" → history ≠ [] →
      generateResponse sv q history ctx =
        Except.ok (applyScreen
            (runRagPipeline sv (cleanRewrite (rewriteQuery sv q history).1 q)).1
            { answer := "", sources := [], intent := "DEPENDENT", sessionUpdates := [],
              debugNodes := none },
          (classifyInput sv q).2 ++ (rewriteQuery sv q history).2
            ++ (runRagPipeline sv (cleanRewrite (rewriteQuery sv q history).1 q)).2)
      ∧ Event.retrieveCall (cleanRewrite (rewriteQuery sv q history).1 q)
          ∈ (runRagPipeline sv (cleanRewrite (rewriteQuery sv q history).1 q)).2) := by
  constructor
  · intro hc
    obtain ⟨tail, htail, htl⟩ := runRag_events sv (normalizeQuery q)
    refine ⟨?_, ?_, ?_⟩
    · simp only [generateResponse, hc]
      rw [if_neg (by decide), if_neg (by decide), if_neg (by decide),
        if_neg (by simp), if_neg (by decide)]
      simp
    · rw [htail]
      simp
    · intro sq hsq
      rcases List.mem_append.mp hsq with hl | hr
      · have := classifyInput_events sv q _ hl
        simp [isRetrievalEvent] at this
      · rw [htail] at hr
        rcases List.mem_cons.mp hr with he | ht
        · exact (Event.retrieveCall.injEq _ _).mp he.symm |>.symm
        · rcases htl _ ht with he | he <;> simp at he
  · intro hc hh
    obtain ⟨a, t, rfl⟩ : ∃ a t, history = a :: t := by
      cases history with
      | nil => exact absurd rfl hh
      | cons a t => exact ⟨a, t, rfl⟩
    obtain ⟨tail, htail, htl⟩ :=
      runRag_events sv (cleanRewrite (rewriteQuery sv q (a :: t)).1 q)
    refine ⟨?_, ?_⟩
    · simp only [generateResponse, hc]
      rw [if_neg (by decide), if_neg (by decide), if_neg (by decide),
        if_neg (by simp), if_pos trivial]
    · rw [htail]
      simp

set_option maxRecDepth 400000 in
/-- Witness for the amended C8: for a DOMAIN classification the normalized
query ("what should be included?") is the one retrieval receives. -/
theorem C8_amended_witness :
    (classifyInput svDom "What should included?").1 = "DOMAIN"
    ∧ Event.retrieveCall (normalizeQuery "What should included?")
        ∈ (classifyInput svDom "What should included?").2
          ++ (runRagPipeline svDom (normalizeQuery "What should included?")).2
    ∧ normalizeQuery "What should included?" = "what should be included?" :=
  ⟨by decide,
   ((C8_normalizer_amended svDom "What should included?" [] []).1 (by decide)).2.1,
   by decide⟩

end CragSpec

